import Mathlib

/-!
Verification of core libterminal (vtbackend) behavior against its
natural-language specification.

The definitions below are a shallow embedding of the C++ sources under
`src/vtbackend` and `src/vtpty`:

* `Modes` embeds the mode register of `TerminalState.h` (ANSI bitset,
  DEC bitset, per-DEC-mode save stacks).
* `Cursor`, `ScreenState` and `applyOp` embed the screen/cursor model of
  `Screen.cpp` (cursor motion, margins, autowrap, DECSC/DECRC).
* `GridM` models the scrollback behavior of the grid.
* `parseColor` / `applySGR` embed the SGR machinery of `Screen.cpp`.
* `captureBufferStream` embeds the chunking logic of `Screen::captureBuffer`.
* `UnixPty.write` embeds the partial-write fallback of `UnixPty.cpp`.

Machine integers are modelled as `Nat`/`Int`; C++ `std::map` keyed stacks
are modelled as total functions with default `[]`.
-/

namespace VtBackend

/-! ## Modes (TerminalState.h, lines 46-82)

`std::bitset<32> _ansi` and `std::bitset<8452+1> _dec` are modelled as
boolean-valued functions over mode numbers; the `std::map<DECMode,
std::vector<bool>> _savedModes` is a function defaulting to the empty stack.
-/

/-- Embedding of `class Modes` from `TerminalState.h`. -/
structure Modes where
  ansi : Nat → Bool
  dec : Nat → Bool
  savedModes : Nat → List Bool

/-- A fresh mode register: all modes reset, no saved stacks. -/
def Modes.initial : Modes :=
  { ansi := fun _ => false, dec := fun _ => false, savedModes := fun _ => [] }

/-- Embedding of `void set(AnsiMode mode, bool enabled) { _ansi.set(...) }` -/
def Modes.setAnsi (m : Modes) (mode : Nat) (enabled : Bool) : Modes :=
  { m with ansi := fun i => if i = mode then enabled else m.ansi i }

/-- Embedding of `void set(DECMode mode, bool enabled) { _dec.set(...) }` -/
def Modes.setDec (m : Modes) (mode : Nat) (enabled : Bool) : Modes :=
  { m with dec := fun i => if i = mode then enabled else m.dec i }

/-- Embedding of `bool enabled(AnsiMode mode) const` -/
def Modes.enabledAnsi (m : Modes) (mode : Nat) : Bool := m.ansi mode

/-- Embedding of `bool enabled(DECMode mode) const` -/
def Modes.enabledDec (m : Modes) (mode : Nat) : Bool := m.dec mode

/-- Embedding of `void save(std::vector<DECMode> const& modes)`: for each mode, push its
current value onto that mode's stack. -/
def Modes.save (m : Modes) (modes : List Nat) : Modes :=
  modes.foldl
    (fun acc mode =>
      { acc with
        savedModes := fun i =>
          if i = mode then acc.savedModes mode ++ [acc.enabledDec mode]
          else acc.savedModes i })
    m

/-- Embedding of `void restore(std::vector<DECMode> const& modes)`: for each mode, if its
stack is non-empty, set the mode to the top value and pop it; otherwise do
nothing. -/
def Modes.restore (m : Modes) (modes : List Nat) : Modes :=
  modes.foldl
    (fun acc mode =>
      if h : acc.savedModes mode ≠ [] then
        let saved := acc.savedModes mode
        let acc := acc.setDec mode (saved.getLast h)
        { acc with
          savedModes := fun i =>
            if i = mode then saved.dropLast else acc.savedModes i }
      else acc)
    m

/-! ## Colors and SGR (Screen.cpp, impl::parseColor / impl::applySGR)

`color` is the variant color type: default, indexed (256-color, a
`uint8_t`-backed enum, hence the `% 256` on casts), bright, or 24-bit RGB.
-/

/-- Embedding of the `color` variant used by SGR. -/
inductive ColorM where
  | default
  | indexed (v : Nat)
  | bright (v : Nat)
  | rgb (r g b : Nat)
deriving DecidableEq, Repr

/-- Embedding of the `graphics_rendition` enum (the non-color SGR effects). -/
inductive GraphicsRendition where
  | Reset | Bold | Faint | Italic
  | Underline | DoublyUnderlined | CurlyUnderlined | DottedUnderline | DashedUnderline
  | Blinking | RapidBlinking | Inverse | Hidden | CrossedOut
  | Normal | NoItalic | NoUnderline | NoBlinking | NoInverse | NoHidden | NoCrossedOut
  | Framed | Overline | NoFramed | NoOverline
deriving DecidableEq, Repr

/-- Embedding of a parsed VT `sequence`'s parameter list (Sequence.h /
Sequence_test.cpp): parameters are stored flat (sub-parameters occupy
their own slots); `subCounts` gives `subParameterCount(i)` per flat index,
i.e. how many sub-parameters follow slot `i`. -/
structure VTSequence where
  params : List Nat
  subCounts : List Nat
deriving DecidableEq, Repr

/-- Embedding of `seq.param(i)`: the flat parameter value at index `i` (0 when absent). -/
def VTSequence.param (seq : VTSequence) (i : Nat) : Nat := seq.params.getD i 0

/-- Embedding of `seq.subparam(i, j)`: sub-parameter `j` of the group starting at flat
index `i`; sub-parameters occupy the following flat slots. -/
def VTSequence.subparam (seq : VTSequence) (i j : Nat) : Nat := seq.param (i + j)

/-- Embedding of `seq.subParameterCount(i)`. -/
def VTSequence.subParameterCount (seq : VTSequence) (i : Nat) : Nat :=
  seq.subCounts.getD i 0

/-- Embedding of `seq.parameterCount()`: the number of flat parameter slots. -/
def VTSequence.parameterCount (seq : VTSequence) : Nat := seq.params.length

/-- The second half of `impl::parseColor` (Screen.cpp lines 2558-2615): the
"compatibility mode" parse for `;5;n` and `;2;r;g;b` forms. `i0` is the index
of the introducing parameter (38/48/58). Every failure path executes
`*pi = i + 1; return color{}` with `i` as advanced so far; note that the
source's success test on the indexed form (line 2569) compares the parameter
INDEX `i`, not the parameter value. -/
def parseColorCompat (seq : VTSequence) (i0 : Nat) : ColorM × Nat :=
  if i0 + 1 < seq.parameterCount then
    let i1 := i0 + 1
    let mode := seq.param i1
    if mode = 5 then
      if i1 + 1 < seq.parameterCount then
        let i2 := i1 + 1
        let value := seq.param i2
        if i2 ≤ 255 then (ColorM.indexed (value % 256), i2)
        else (ColorM.default, i2 + 1)
      else (ColorM.default, i1 + 1)
    else if mode = 2 then
      if i1 + 3 < seq.parameterCount then
        let r := seq.param (i1 + 1)
        let g := seq.param (i1 + 2)
        let b := seq.param (i1 + 3)
        let i4 := i1 + 3
        if r ≤ 255 ∧ g ≤ 255 ∧ b ≤ 255 then (ColorM.rgb r g b, i4)
        else (ColorM.default, i4 + 1)
      else (ColorM.default, i1 + 1)
    else (ColorM.default, i1 + 1)
  else (ColorM.default, i0 + 1)

/-- Embedding of `impl::parseColor` (Screen.cpp lines 2507-2616). The first
half handles the colon sub-parameter forms `:2::r:g:b`, `:2:r:g:b`, `:5:P`;
on success it returns with `*pi += len`. All other paths fall through to the
compatibility-mode parse, whose final `*pi = i + 1` assignment overrides any
earlier `*pi` update (including the `case 3/4` ones). Returns the parsed
color together with the new value of `*pi`. -/
def parseColor (seq : VTSequence) (pi : Nat) : ColorM × Nat :=
  let i := pi
  let len := seq.subParameterCount i
  if 1 ≤ len then
    match seq.param (i + 1) with
    | 2 =>
      if len = 4 ∨ len = 5 then
        let r := seq.subparam i (len - 2)
        let g := seq.subparam i (len - 1)
        let b := seq.subparam i len
        if r ≤ 255 ∧ g ≤ 255 ∧ b ≤ 255 then (ColorM.rgb r g b, pi + len)
        else parseColorCompat seq i
      else parseColorCompat seq i
    | 3 => parseColorCompat seq i
    | 4 => parseColorCompat seq i
    | 5 =>
      if seq.subparam i 2 ≤ 255 then (ColorM.indexed (seq.subparam i 2 % 256), pi + len)
      else parseColorCompat seq i
    | _ => parseColorCompat seq i
  else parseColorCompat seq i

/-- The four mutation entry points the `applySGR` template drives on its
`Target` (`Screen`/`Terminal`): exactly the methods used by the source. -/
structure SGRTarget (σ : Type) where
  setGraphicsRendition : σ → GraphicsRendition → σ
  setForegroundColor : σ → ColorM → σ
  setBackgroundColor : σ → ColorM → σ
  setUnderlineColor : σ → ColorM → σ

/-- One iteration body of the `applySGR` parameter loop (the big `switch` in
Screen.cpp lines 2628-2719); returns the updated target and the value of `i`
after the body (the loop's `++i` is applied by the caller). -/
def applySGRStep (T : SGRTarget σ) (seq : VTSequence) (i : Nat) (t : σ) : σ × Nat :=
  match seq.param i with
  | 0 => (T.setGraphicsRendition t .Reset, i)
  | 1 => (T.setGraphicsRendition t .Bold, i)
  | 2 => (T.setGraphicsRendition t .Faint, i)
  | 3 => (T.setGraphicsRendition t .Italic, i)
  | 4 =>
    if seq.subParameterCount i = 1 then
      let r := match seq.subparam i 1 with
        | 0 => GraphicsRendition.NoUnderline
        | 1 => GraphicsRendition.Underline
        | 2 => GraphicsRendition.DoublyUnderlined
        | 3 => GraphicsRendition.CurlyUnderlined
        | 4 => GraphicsRendition.DottedUnderline
        | 5 => GraphicsRendition.DashedUnderline
        | _ => GraphicsRendition.Underline
      (T.setGraphicsRendition t r, i + 1)
    else (T.setGraphicsRendition t .Underline, i)
  | 5 => (T.setGraphicsRendition t .Blinking, i)
  | 6 => (T.setGraphicsRendition t .RapidBlinking, i)
  | 7 => (T.setGraphicsRendition t .Inverse, i)
  | 8 => (T.setGraphicsRendition t .Hidden, i)
  | 9 => (T.setGraphicsRendition t .CrossedOut, i)
  | 21 => (T.setGraphicsRendition t .DoublyUnderlined, i)
  | 22 => (T.setGraphicsRendition t .Normal, i)
  | 23 => (T.setGraphicsRendition t .NoItalic, i)
  | 24 => (T.setGraphicsRendition t .NoUnderline, i)
  | 25 => (T.setGraphicsRendition t .NoBlinking, i)
  | 27 => (T.setGraphicsRendition t .NoInverse, i)
  | 28 => (T.setGraphicsRendition t .NoHidden, i)
  | 29 => (T.setGraphicsRendition t .NoCrossedOut, i)
  | 30 => (T.setForegroundColor t (.indexed 0), i)
  | 31 => (T.setForegroundColor t (.indexed 1), i)
  | 32 => (T.setForegroundColor t (.indexed 2), i)
  | 33 => (T.setForegroundColor t (.indexed 3), i)
  | 34 => (T.setForegroundColor t (.indexed 4), i)
  | 35 => (T.setForegroundColor t (.indexed 5), i)
  | 36 => (T.setForegroundColor t (.indexed 6), i)
  | 37 => (T.setForegroundColor t (.indexed 7), i)
  | 38 =>
    let pc := parseColor seq i
    (T.setForegroundColor t pc.1, pc.2)
  | 39 => (T.setForegroundColor t .default, i)
  | 40 => (T.setBackgroundColor t (.indexed 0), i)
  | 41 => (T.setBackgroundColor t (.indexed 1), i)
  | 42 => (T.setBackgroundColor t (.indexed 2), i)
  | 43 => (T.setBackgroundColor t (.indexed 3), i)
  | 44 => (T.setBackgroundColor t (.indexed 4), i)
  | 45 => (T.setBackgroundColor t (.indexed 5), i)
  | 46 => (T.setBackgroundColor t (.indexed 6), i)
  | 47 => (T.setBackgroundColor t (.indexed 7), i)
  | 48 =>
    let pc := parseColor seq i
    (T.setBackgroundColor t pc.1, pc.2)
  | 49 => (T.setBackgroundColor t .default, i)
  | 51 => (T.setGraphicsRendition t .Framed, i)
  | 53 => (T.setGraphicsRendition t .Overline, i)
  | 54 => (T.setGraphicsRendition t .NoFramed, i)
  | 55 => (T.setGraphicsRendition t .NoOverline, i)
  | 58 =>
    let pc := parseColor seq i
    (T.setUnderlineColor t pc.1, pc.2)
  | 90 => (T.setForegroundColor t (.bright 0), i)
  | 91 => (T.setForegroundColor t (.bright 1), i)
  | 92 => (T.setForegroundColor t (.bright 2), i)
  | 93 => (T.setForegroundColor t (.bright 3), i)
  | 94 => (T.setForegroundColor t (.bright 4), i)
  | 95 => (T.setForegroundColor t (.bright 5), i)
  | 96 => (T.setForegroundColor t (.bright 6), i)
  | 97 => (T.setForegroundColor t (.bright 7), i)
  | 100 => (T.setBackgroundColor t (.bright 0), i)
  | 101 => (T.setBackgroundColor t (.bright 1), i)
  | 102 => (T.setBackgroundColor t (.bright 2), i)
  | 103 => (T.setBackgroundColor t (.bright 3), i)
  | 104 => (T.setBackgroundColor t (.bright 4), i)
  | 105 => (T.setBackgroundColor t (.bright 5), i)
  | 106 => (T.setBackgroundColor t (.bright 6), i)
  | 107 => (T.setBackgroundColor t (.bright 7), i)
  | _ => (t, i)

/-- The `for (i = parameterStart; i < parameterEnd; ++i)` loop of `applySGR`.
`fuel` bounds the number of iterations; since the body never decreases `i`,
`parameterEnd - parameterStart` iterations always suffice. -/
def applySGRLoop (T : SGRTarget σ) (seq : VTSequence) (pEnd : Nat) :
    Nat → Nat → σ → σ
  | 0, _, t => t
  | fuel + 1, i, t =>
    if i < pEnd then
      let st := applySGRStep T seq i t
      applySGRLoop T seq pEnd fuel (st.2 + 1) st.1
    else t

/-- Embedding of `impl::applySGR` (Screen.cpp lines 2618-2722). -/
def applySGR (T : SGRTarget σ) (seq : VTSequence)
    (parameterStart parameterEnd : Nat) (t : σ) : σ :=
  if parameterStart = parameterEnd then T.setGraphicsRendition t .Reset
  else applySGRLoop T seq parameterEnd (parameterEnd - parameterStart) parameterStart t

/-- The foreground-color projection of the SGR target: `setForegroundColor`
stores the new color (Screen.cpp line 1668-1671 assigns
`_cursor.graphicsRendition.foregroundColor`), while the other three methods
write other fields and leave the foreground untouched. -/
def fgTarget : SGRTarget ColorM :=
  { setGraphicsRendition := fun c _ => c
    setForegroundColor := fun _ c => c
    setBackgroundColor := fun c _ => c
    setUnderlineColor := fun c _ => c }

/-- The parameter list of `CSI 38;5;n m`: three top-level parameters,
no sub-parameters. -/
def sgrIndexedFgSeq (n : Nat) : VTSequence :=
  { params := [38, 5, n], subCounts := [0, 0, 0] }

/-! ## Grid scrollback (Grid scroll-up policy, spec section 4.4) -/

/-- The vertical scroll margin `[from, to]`, both inclusive, as 0-based row
numbers (`margin::vertical`). -/
structure VertMargin where
  vFrom : Nat
  vTo : Nat
deriving DecidableEq, Repr

/-- Modelled from the spec: the grid of one screen, reduced to what the
scroll-up policy observes (`Grid.h`/`Grid.cpp` are not among the sources
here). `pageRows` are the live page rows top to bottom, `historyRows` the
scrollback rows oldest first, bounded by `maxHistoryLineCount`. -/
structure GridM (α : Type) where
  blankRow : α
  pageRows : List α
  historyRows : List α
  maxHistoryLineCount : Nat

/-- The number of scrollback history lines. -/
def GridM.historyLineCount (g : GridM α) : Nat := g.historyRows.length

/-- Modelled from the spec: `Grid::scrollUp(n, sgr, margin)` per section 4.4,
"moves the top `n` lines of the margin region into scrollback *only if the
margin covers the full page*, otherwise discards; returns the number of lines
actually appended to history", with scrollback bounded by
`maxHistoryLineCount` (oldest lines evicted). -/
def GridM.scrollUp (g : GridM α) (n : Nat) (m : VertMargin) : GridM α × Nat :=
  if m.vFrom = 0 ∧ m.vTo + 1 = g.pageRows.length then
    let pushed := g.pageRows.take n ++ List.replicate (n - g.pageRows.length) g.blankRow
    let stacked := g.historyRows ++ pushed
    let trimmed := stacked.drop (stacked.length - g.maxHistoryLineCount)
    ({ g with
        historyRows := trimmed
        pageRows := g.pageRows.drop n ++ List.replicate (min n g.pageRows.length) g.blankRow },
      n)
  else
    let top := m.vFrom
    let count := m.vTo + 1 - m.vFrom
    let region := (g.pageRows.drop top).take count
    let rotated := region.drop n ++ List.replicate (min n count) g.blankRow
    ({ g with pageRows := g.pageRows.take top ++ rotated ++ g.pageRows.drop (top + count) }, 0)

/-! ## Capture-buffer chunking (Screen::captureBuffer, Screen.cpp 1503-1570) -/

/-- One `reply(...)` emission of `captureBuffer`, abstracted to tokens:
`chunkHeader` is the literal bytes `ESC ^ <CaptureBufferCode> ;`, `payload n`
is `n` bytes of captured cell text, `st` is the terminator `ESC \`. -/
inductive ReplyToken where
  | chunkHeader
  | payload (n : Nat)
  | st
deriving DecidableEq, Repr

/-- Embedding of `size_t constexpr MaxChunkSize = 4096;` -/
def MaxChunkSize : Nat := 4096

/-- Embedding of the `pushContent` lambda (Screen.cpp lines 1522-1536) on the
state (emitted tokens so far, `currentChunkSize`); `n` is `data.size()`. -/
def pushContent (acc : List ReplyToken × Nat) (n : Nat) : List ReplyToken × Nat :=
  if n = 0 then acc
  else
    let out := acc.1
    let cur := acc.2
    if cur = 0 then (out ++ [ReplyToken.chunkHeader, ReplyToken.payload n], n)
    else if MaxChunkSize ≤ cur + n then
      (out ++ [ReplyToken.st, ReplyToken.chunkHeader, ReplyToken.payload n], n)
    else (out ++ [ReplyToken.payload n], cur + n)

/-- Embedding of the reply stream emitted by `Screen::captureBuffer`:
`pieces` are the sizes of the individual `pushContent` data arguments (one
per captured cell's UTF-8, plus 1 for each line's `"\n"`), in order. After
the loop the open chunk (if any) is terminated, then the end marker
`ESC ^ code ; ESC \` (an empty chunk) is sent. -/
def captureBufferStream (pieces : List Nat) : List ReplyToken :=
  let folded := pieces.foldl pushContent ([], 0)
  folded.1 ++ (if folded.2 ≠ 0 then [ReplyToken.st] else [])
    ++ [ReplyToken.chunkHeader, ReplyToken.st]

/-- The token rendering of one well-formed chunk with payload pieces `c`:
header, payload, terminator. -/
def chunkRender (c : List Nat) : List ReplyToken :=
  ReplyToken.chunkHeader :: (c.map ReplyToken.payload ++ [ReplyToken.st])

/-- The token rendering of a sequence of well-formed chunks. -/
def chunksRender (cs : List (List Nat)) : List ReplyToken :=
  (cs.map chunkRender).flatten

/-- The invariant maintained by the `pushContent` fold: the emitted tokens
so far decompose into complete chunks followed, if `currentChunkSize ≠ 0`,
by one open chunk whose payload pieces sum to `currentChunkSize`; every
complete chunk's payload is within `MaxChunkSize`, and so is the open one. -/
def chunkInv (acc : List ReplyToken × Nat) : Prop :=
  acc.2 ≤ MaxChunkSize ∧
  ∃ (cs : List (List Nat)) (pend : List Nat),
    acc.1 = chunksRender cs ++
      (if acc.2 = 0 then []
       else ReplyToken.chunkHeader :: pend.map ReplyToken.payload) ∧
    pend.sum = acc.2 ∧ ∀ c ∈ cs, c.sum ≤ MaxChunkSize

/-! ## UnixPty::write (UnixPty.cpp, lines 365-401) -/

/-- File-descriptor operations `UnixPty::write` performs on the PTY master,
in order: `detail::setFileBlocking(_masterFd, b)` and
`::write(_masterFd, buf + offset, len)`. -/
inductive FdAction where
  | setBlocking (b : Bool)
  | writeCall (offset len : Nat)
deriving DecidableEq, Repr

/-- Embedding of `UnixPty::write(std::string_view data)`. `size` is
`data.size()`; the two `::write` syscall results are supplied as oracles:
`rv` for the first (non-blocking) write and `rv2` for the second (blocking)
write of the remainder, which is only performed on a partial first write.
Returns the trace of fd operations and the function's return value. -/
def UnixPty.write (size : Nat) (rv : Int) (rv2 : Int) : List FdAction × Int :=
  let first : List FdAction := [FdAction.writeCall 0 size]
  if 0 ≤ rv ∧ rv.toNat < size then
    let actions := first ++
      [FdAction.setBlocking true,
       FdAction.writeCall rv.toNat (size - rv.toNat),
       FdAction.setBlocking false]
    if 0 ≤ rv2 then (actions, rv + rv2) else (actions, rv)
  else (first, rv)

/-! ## Screen model (Screen.cpp, TerminalState.h)

Coordinates are signed (`LineOffset`/`ColumnOffset` are signed integers);
page sizes are stored as `Int` for uniform arithmetic. The grid's cells and
line flags are total functions over coordinates; only the live page region
is meaningful.
-/

/-- Embedding of `CellLocation = (LineOffset, ColumnOffset)`. -/
structure CellLocation where
  line : Int
  column : Int
deriving DecidableEq, Repr

/-- A charset designation for one of the G0..G3 tables (`charset_id`). The
DEC Special Graphics translation table itself lives in `Charset.h`, outside
the sources here; none of the verified properties exercises it. -/
inductive CharsetId where
  | USASCII
  | Special
deriving DecidableEq, Repr

/-- Embedding of `CharsetMapping`: the G0..G3 designations plus the table
shifted into GL (LS0/LS1). -/
structure CharsetMapping where
  g0 : CharsetId := .USASCII
  g1 : CharsetId := .USASCII
  g2 : CharsetId := .USASCII
  g3 : CharsetId := .USASCII
  gl : Nat := 0
deriving DecidableEq, Repr

/-- Embedding of `_cursor.charsets.map(cp)`. With USASCII selected (the only designation
the verified scenarios exercise) the mapping is the identity; the DEC Special Graphics
table is external to the sources here. -/
def CharsetMapping.map (_cm : CharsetMapping) (cp : Nat) : Nat := cp

/-- Embedding of `GraphicsAttributes`: foreground/background/decoration
colors plus the `cell_flags` bitset (kept as a raw bitset value; the flag
bit assignments live in headers outside the sources here). -/
structure GraphicsAttributes where
  foregroundColor : ColorM := .default
  backgroundColor : ColorM := .default
  underlineColor : ColorM := .default
  flags : Nat := 0
deriving DecidableEq, Repr

/-- Embedding of the `Cursor` struct (TerminalState.h lines 89-101); this is
exactly the data DECSC/DECRC saves and restores. -/
structure Cursor where
  position : CellLocation := ⟨0, 0⟩
  autoWrap : Bool := true
  originMode : Bool := false
  wrapPending : Bool := false
  graphicsRendition : GraphicsAttributes := {}
  charsets : CharsetMapping := {}
  hyperlink : Nat := 0
deriving DecidableEq, Repr

/-- One grid cell: codepoint (0 = blank), display width, graphics
attributes, hyperlink id. -/
structure Cell where
  codepoint : Nat := 0
  width : Nat := 1
  attributes : GraphicsAttributes := {}
  hyperlink : Nat := 0
deriving DecidableEq, Repr

/-- Embedding of `Cell::write(sgr, codepoint, width, hyperlink)`. -/
def Cell.write (_c : Cell) (sgr : GraphicsAttributes) (cp : Nat) (w : Nat)
    (hl : Nat) : Cell :=
  { codepoint := cp, width := w, attributes := sgr, hyperlink := hl }

/-- Embedding of `Cell::write(sgr, codepoint, width)` (the three-argument overload used
by `fillArea` and the erase helpers): overwrites text, width and attributes. -/
def Cell.writeSgrChar (c : Cell) (sgr : GraphicsAttributes) (cp : Nat)
    (w : Nat) : Cell :=
  { c with codepoint := cp, width := w, attributes := sgr }

/-- Embedding of `Cell::reset(sgr, hyperlink)`: a blank cell carrying the given
attributes and hyperlink. -/
def Cell.reset (_c : Cell) (sgr : GraphicsAttributes) (hl : Nat) : Cell :=
  { codepoint := 0, width := 1, attributes := sgr, hyperlink := hl }

/-- Embedding of `LineFlags`: `Wrappable`, `Wrapped`, `Marked`. New grid lines of the
primary screen are wrappable (reflow-enabled default). -/
structure LineFlags where
  wrappable : Bool := true
  wrapped : Bool := false
  marked : Bool := false
deriving DecidableEq, Repr

/-- Vertical and horizontal margins, both inclusive (`struct margin`). -/
structure Margin where
  vertFrom : Int
  vertTo : Int
  horiFrom : Int
  horiTo : Int
deriving DecidableEq, Repr

/-- The screen state driven by the sequencer: page size, margins, cursor,
saved cursor (DECSC), grid cells and line flags, mode register, scrollback
count. -/
structure ScreenState where
  pageLines : Int
  pageColumns : Int
  margin : Margin
  cursor : Cursor := {}
  savedCursor : Cursor := {}
  lastCursorPosition : CellLocation := ⟨0, 0⟩
  cells : Int → Int → Cell
  lineFlags : Int → LineFlags
  modes : Modes := Modes.initial
  historyLineCount : Nat := 0
  maxHistoryLineCount : Nat := 0
  usingStdoutFastPipe : Bool := false

/-- DEC private mode numbers used here (`toDECMode`, Screen.cpp 2396-2449). -/
def DECModeOrigin : Nat := 6

/-- DECAWM. -/
def DECModeAutoWrap : Nat := 7

/-- DECLRMM. -/
def DECModeLeftRightMargin : Nat := 69

/-- DECCOLM (`toDECMode` case 3, `dec_mode::Columns132`): resizes the page. -/
def DECModeColumns132 : Nat := 3

/-- Mode 47 (`dec_mode::UseAlternateScreen`): switches screens. -/
def DECModeUseAlternateScreen : Nat := 47

/-- Mode 1047 (also `dec_mode::UseAlternateScreen`). -/
def DECModeUseAlternateScreen1047 : Nat := 1047

/-- Mode 1048 (`toDECMode` case 1048, `dec_mode::SaveCursor`): set saves the
cursor, reset restores it, through the same slot as DECSC/DECRC. -/
def DECModeSaveCursor : Nat := 1048

/-- Mode 1049 (`dec_mode::ExtendedAltScreen`): alt screen with cursor save. -/
def DECModeExtendedAltScreen : Nat := 1049

/-- ANSI mode 20 (LNM / AutomaticNewLine). -/
def AnsiModeAutomaticNewLine : Nat := 20

/-- Modelled from usage (`Screen.h` is not among the sources): clamp a
coordinate into the page, per the invariant `verifyState` requires. -/
def ScreenState.clampToScreen (s : ScreenState) (p : CellLocation) : CellLocation :=
  ⟨max 0 (min p.line (s.pageLines - 1)), max 0 (min p.column (s.pageColumns - 1))⟩

/-- Modelled from usage: clamp a coordinate into the origin-mode region
(bounded by the margins). -/
def ScreenState.clampToOrigin (s : ScreenState) (p : CellLocation) : CellLocation :=
  ⟨max 0 (min p.line s.margin.vertTo), max 0 (min p.column s.margin.horiTo)⟩

/-- Modelled from usage: `clampCoordinate` clamps relative to origin mode. -/
def ScreenState.clampCoordinate (s : ScreenState) (p : CellLocation) : CellLocation :=
  if s.cursor.originMode then s.clampToOrigin p else s.clampToScreen p

/-- Modelled from usage: `logicalCursorPosition()` is the cursor position
relative to the margin origin under origin mode, absolute otherwise. -/
def ScreenState.logicalCursorPosition (s : ScreenState) : CellLocation :=
  if s.cursor.originMode then
    ⟨s.cursor.position.line - s.margin.vertFrom, s.cursor.position.column - s.margin.horiFrom⟩
  else s.cursor.position

/-- Embedding of `Screen::isCursorInsideMargins()` (Screen.cpp lines 3916-3923). -/
def ScreenState.isCursorInsideMargins (s : ScreenState) : Prop :=
  (s.margin.vertFrom ≤ s.cursor.position.line ∧ s.cursor.position.line ≤ s.margin.vertTo) ∧
  (s.modes.enabledDec DECModeLeftRightMargin = false ∨
    (s.margin.horiFrom ≤ s.cursor.position.column ∧ s.cursor.position.column ≤ s.margin.horiTo))

instance (s : ScreenState) : Decidable s.isCursorInsideMargins := by
  unfold ScreenState.isCursorInsideMargins; infer_instance

/-- Embedding of `unicode::width(cp)` (external libunicode). Every codepoint in the verified
scenarios is a width-1 character, which this model fixes. -/
def ucWidth (_cp : Nat) : Nat := 1

/-- A blank cell carrying the scroll fill attributes. -/
def blankCell (sgr : GraphicsAttributes) : Cell :=
  { codepoint := 0, width := 1, attributes := sgr, hyperlink := 0 }

/-- Modelled from the spec (Grid.cpp is not among the sources): the cell
effect of `Grid::scrollUp(n, sgr, margin)`. With the margin covering the
full page, rows move up by `n`, the freed bottom rows become blank, and `n`
lines enter scrollback history bounded by `maxHistoryLineCount`; with a
smaller margin, only the margin rectangle rotates and history is untouched. -/
def ScreenState.gridScrollUp (s : ScreenState) (n : Nat)
    (sgr : GraphicsAttributes) (m : Margin) : ScreenState :=
  if n = 0 then s
  else if m.vertFrom = 0 ∧ m.vertTo = s.pageLines - 1 ∧
          m.horiFrom = 0 ∧ m.horiTo = s.pageColumns - 1 then
    { s with
      cells := fun l c =>
        if l + n ≤ s.pageLines - 1 then s.cells (l + n) c else blankCell sgr
      lineFlags := fun l =>
        if l + n ≤ s.pageLines - 1 then s.lineFlags (l + n) else {}
      historyLineCount := min (s.historyLineCount + n) s.maxHistoryLineCount }
  else
    { s with
      cells := fun l c =>
        if m.vertFrom ≤ l ∧ l ≤ m.vertTo ∧ m.horiFrom ≤ c ∧ c ≤ m.horiTo then
          if l + n ≤ m.vertTo then s.cells (l + n) c else blankCell sgr
        else s.cells l c }

/-- Modelled from the spec: the cell effect of
`Grid::scrollDown(n, sgr, margin)` (no history involved). -/
def ScreenState.gridScrollDown (s : ScreenState) (n : Nat)
    (sgr : GraphicsAttributes) (m : Margin) : ScreenState :=
  if n = 0 then s
  else
    { s with
      cells := fun l c =>
        if m.vertFrom ≤ l ∧ l ≤ m.vertTo ∧ m.horiFrom ≤ c ∧ c ≤ m.horiTo then
          if m.vertFrom ≤ l - n then s.cells (l - n) c else blankCell sgr
        else s.cells l c
      lineFlags := fun l =>
        if m.vertFrom ≤ l ∧ l ≤ m.vertTo then
          if m.vertFrom ≤ l - n then s.lineFlags (l - n) else {}
        else s.lineFlags l }

/-- Embedding of `Screen::scrollUp(n, sgr, margin)` (Screen.cpp lines 736-744): delegate
to the grid; the cursor itself does not move. -/
def ScreenState.scrollUp (s : ScreenState) (n : Nat) (sgr : GraphicsAttributes)
    (m : Margin) : ScreenState :=
  s.gridScrollUp n sgr m

/-- Embedding of `Screen::scrollDown(n, margin)` (Screen.cpp lines 746-752). -/
def ScreenState.scrollDown (s : ScreenState) (n : Nat) (m : Margin) : ScreenState :=
  s.gridScrollDown n s.cursor.graphicsRendition m

/-- Embedding of `Screen::moveCursorTo(line, column)` (Screen.cpp lines 692-706). -/
def ScreenState.moveCursorTo (s : ScreenState) (line column : Int) : ScreenState :=
  let p : CellLocation :=
    if s.cursor.originMode then
      ⟨line + s.margin.vertFrom, column + s.margin.horiFrom⟩
    else ⟨line, column⟩
  { s with cursor := { s.cursor with wrapPending := false, position := s.clampToScreen p } }

/-- Embedding of `Screen::linefeed(column_offset newColumn)` (Screen.cpp lines 708-734). -/
def ScreenState.linefeedColumn (s : ScreenState) (newColumn : Int) : ScreenState :=
  let s := { s with cursor := { s.cursor with
    wrapPending := false
    position := { s.cursor.position with column := newColumn } } }
  if s.cursor.position.line = s.margin.vertTo then
    s.scrollUp 1 s.cursor.graphicsRendition s.margin
  else
    { s with cursor := { s.cursor with
        position := { s.cursor.position with line := s.cursor.position.line + 1 } } }

/-- Embedding of `Screen::linefeed()` (Screen.cpp lines 773-783): LF acts as CRLF when
coming through the stdout fast pipe or under ANSI AutomaticNewLine mode. -/
def ScreenState.linefeed (s : ScreenState) : ScreenState :=
  let newColumnOffset :=
    if s.usingStdoutFastPipe ∨ s.modes.enabledAnsi AnsiModeAutomaticNewLine = true
    then s.margin.horiFrom
    else s.cursor.position.column
  s.linefeedColumn newColumnOffset

/-- Embedding of `crlf()` (Screen.h usage): linefeed to the left margin column. -/
def ScreenState.crlf (s : ScreenState) : ScreenState :=
  s.linefeedColumn s.margin.horiFrom

/-- Embedding of `Screen::crlfIfWrapPending()` (Screen.cpp lines 486-497). -/
def ScreenState.crlfIfWrapPending (s : ScreenState) : ScreenState :=
  if s.cursor.wrapPending = true ∧ s.cursor.autoWrap = true then
    let lineWrappable := (s.lineFlags s.cursor.position.line).wrappable
    let s2 := s.crlf
    if lineWrappable = true then
      { s2 with lineFlags := fun l =>
          if l = s2.cursor.position.line then
            { s2.lineFlags l with wrappable := true, wrapped := true }
          else s2.lineFlags l }
    else s2
  else s

/-- Embedding of `Screen::clearAndAdvance(offset)` (Screen.cpp lines 565-593). -/
def ScreenState.clearAndAdvance (s : ScreenState) (offset : Int) : ScreenState :=
  if offset = 0 then s
  else
    let cursorInsideMargin :=
      s.modes.enabledDec DECModeLeftRightMargin = true ∧ s.isCursorInsideMargins
    let cellsAvailable :=
      if cursorInsideMargin then (s.margin.horiTo - s.cursor.position.column) - 1
      else s.pageColumns - s.cursor.position.column - 1
    let n := min offset cellsAvailable
    if n = offset then
      let col0 := s.cursor.position.column
      { s with
        cursor := { s.cursor with
          position := { s.cursor.position with column := col0 + n } }
        cells := fun l c =>
          if l = s.cursor.position.line ∧ col0 + 1 ≤ c ∧ c < col0 + n then
            (s.cells l c).reset s.cursor.graphicsRendition s.cursor.hyperlink
          else s.cells l c }
    else if s.cursor.autoWrap = true then
      { s with cursor := { s.cursor with wrapPending := true } }
    else s

/-- Embedding of `Screen::writeCharToCurrentAndAdvance(codepoint)` (Screen.cpp lines
534-563). -/
def ScreenState.writeCharToCurrentAndAdvance (s : ScreenState) (cp : Nat) : ScreenState :=
  let w := ucWidth cp
  let s1 := { s with
    cells := fun l c =>
      if l = s.cursor.position.line ∧ c = s.cursor.position.column then
        (s.cells l c).write s.cursor.graphicsRendition cp w s.cursor.hyperlink
      else s.cells l c
    lastCursorPosition := s.cursor.position }
  s1.clearAndAdvance (w : Int)

/-- Embedding of `Screen::writeTextInternal(codepoint)` (Screen.cpp lines 511-532),
restricted to the grapheme-breakable path: every pair of consecutive
codepoints in the verified inputs is breakable printable ASCII (the
non-breakable branch appends to the preceding cell via external libunicode
segmentation). -/
def ScreenState.writeTextInternal (s : ScreenState) (sourceCodepoint : Nat) : ScreenState :=
  let s := s.crlfIfWrapPending
  let codepoint := s.cursor.charsets.map sourceCodepoint
  s.writeCharToCurrentAndAdvance codepoint

/-- Embedding of `Screen::setCurrentColumn(n)` (Screen.cpp lines 754-762). -/
def ScreenState.setCurrentColumn (s : ScreenState) (n : Int) : ScreenState :=
  let col := if s.cursor.originMode then s.margin.horiFrom + n else n
  let clampedCol := min col (s.pageColumns - 1)
  { s with cursor := { s.cursor with
      wrapPending := false
      position := { s.cursor.position with column := clampedCol } } }

/-- Embedding of `Screen::moveCursorUp(n)` (Screen.cpp lines 1390-1402). -/
def ScreenState.moveCursorUp (s : ScreenState) (n : Nat) : ScreenState :=
  let s := { s with cursor := { s.cursor with wrapPending := false } }
  let logicalLine := s.logicalCursorPosition.line
  let sanitizedN :=
    min (n : Int)
      (if logicalLine > s.margin.vertFrom then logicalLine - s.margin.vertFrom
       else logicalLine)
  { s with cursor := { s.cursor with
      position := { s.cursor.position with line := s.cursor.position.line - sanitizedN } } }

/-- Embedding of `Screen::moveCursorDown(n)` (Screen.cpp lines 1404-1418). -/
def ScreenState.moveCursorDown (s : ScreenState) (n : Nat) : ScreenState :=
  let s := { s with cursor := { s.cursor with wrapPending := false } }
  let currentLineNumber := s.logicalCursorPosition.line
  let sanitizedN :=
    min (n : Int)
      (if currentLineNumber ≤ s.margin.vertTo then s.margin.vertTo - currentLineNumber
       else (s.pageLines - 1) - currentLineNumber)
  { s with cursor := { s.cursor with
      position := { s.cursor.position with line := s.cursor.position.line + sanitizedN } } }

/-- Embedding of `Screen::moveCursorForward(n)` (Screen.cpp lines 1420-1426). -/
def ScreenState.moveCursorForward (s : ScreenState) (n : Nat) : ScreenState :=
  { s with cursor := { s.cursor with
      wrapPending := false
      position := { s.cursor.position with
        column := min (s.cursor.position.column + n) s.margin.horiTo } } }

/-- Embedding of `Screen::moveCursorBackward(n)` (Screen.cpp lines
1428-1438): clear the pending wrap, then route the sanitized target through
`setCurrentColumn` (which re-applies the origin-mode offset and clamps). -/
def ScreenState.moveCursorBackward (s : ScreenState) (n : Nat) : ScreenState :=
  let s := { s with cursor := { s.cursor with wrapPending := false } }
  let sanitizedN := min (n : Int) s.cursor.position.column
  s.setCurrentColumn (s.cursor.position.column - sanitizedN)

/-- Embedding of `Screen::backspace()` (Screen.cpp lines 785-791). -/
def ScreenState.backspace (s : ScreenState) : ScreenState :=
  if s.cursor.position.column ≠ 0 then
    { s with cursor := { s.cursor with
        position := { s.cursor.position with column := s.cursor.position.column - 1 } } }
  else s

/-- Embedding of `Screen::index()` (Screen.cpp lines 1626-1634). -/
def ScreenState.index (s : ScreenState) : ScreenState :=
  if s.cursor.position.line = s.margin.vertTo then
    s.scrollUp 1 {} s.margin
  else s.moveCursorDown 1

/-- Embedding of `Screen::reverseIndex()` (Screen.cpp lines 1636-1644). -/
def ScreenState.reverseIndex (s : ScreenState) : ScreenState :=
  if s.cursor.position.line = s.margin.vertFrom then
    s.scrollDown 1 s.margin
  else s.moveCursorUp 1

/-- Embedding of `Screen::saveCursor()` (Screen.cpp lines 3268-3274): DECSC stores the
cursor struct verbatim. -/
def ScreenState.saveCursor (s : ScreenState) : ScreenState :=
  { s with savedCursor := s.cursor }

/-- Modelled from the spec (Terminal.cpp is not among the sources):
`Terminal::setMode` for the DEC private modes with no screen-switch side
effects — updates the mode register; Origin (6) and AutoWrap (7) mirror
into the cursor flags. The cursor-save mode 1048 is handled at the
dispatch level (`applyOp`); the alt-screen and column modes 47/1047/1049/3
switch to a screen with its own state or resize the page (spec sections
4.5-4.6) and are outside this single-screen model, so the round-trip
theorem excludes them. -/
def ScreenState.setModeDec (s : ScreenState) (mode : Nat) (enabled : Bool) : ScreenState :=
  let s := { s with modes := s.modes.setDec mode enabled }
  if mode = DECModeOrigin then
    { s with cursor := { s.cursor with originMode := enabled } }
  else if mode = DECModeAutoWrap then
    { s with cursor := { s.cursor with autoWrap := enabled } }
  else s

/-- Embedding of `Screen::restoreCursor(Cursor const&)` (Screen.cpp lines 3284-3294):
assign the saved cursor, clamp its position, and re-assert the AutoWrap and
Origin modes from the saved flags. -/
def ScreenState.restoreCursorWith (s : ScreenState) (savedCursor : Cursor) : ScreenState :=
  let s := { s with cursor := savedCursor }
  let s := { s with cursor := { s.cursor with position := s.clampCoordinate s.cursor.position } }
  let s := s.setModeDec DECModeAutoWrap savedCursor.autoWrap
  s.setModeDec DECModeOrigin savedCursor.originMode

/-- Embedding of `Screen::restoreCursor()` (Screen.cpp lines 3276-3282): DECRC. -/
def ScreenState.restoreCursor (s : ScreenState) : ScreenState :=
  s.restoreCursorWith s.savedCursor

/-- Modelled from the spec (Terminal.cpp is not among the sources):
`Terminal::setTopBottomMargin(top, bottom)` — defaults are the page edges,
values are clipped to the page, and the margin is applied only when
`top < bottom`. -/
def ScreenState.setTopBottomMargin (s : ScreenState)
    (top bottom : Option Int) : ScreenState :=
  let defaultTop : Int := 0
  let defaultBottom := s.pageLines - 1
  let sanitizedTop := max defaultTop (top.getD defaultTop)
  let sanitizedBottom := min defaultBottom (bottom.getD defaultBottom)
  if sanitizedTop < sanitizedBottom then
    { s with margin := { s.margin with vertFrom := sanitizedTop, vertTo := sanitizedBottom } }
  else s

/-- Embedding of `Screen::fillArea(ch, top, left, bottom, right)` (Screen.cpp lines
1271-1290, DECFRA): reject codepoints outside `[32,126] ∪ [160,255]`,
otherwise overwrite every cell of the rectangle. -/
def ScreenState.fillArea (s : ScreenState) (ch : Nat)
    (top left bottom right : Int) : ScreenState :=
  if ¬((32 ≤ ch ∧ ch ≤ 126) ∨ (160 ≤ ch ∧ ch ≤ 255)) then s
  else
    let w := ucWidth ch
    { s with cells := fun y x =>
        if top ≤ y ∧ y ≤ bottom ∧ left ≤ x ∧ x ≤ right then
          (s.cells y x).writeSgrChar s.cursor.graphicsRendition ch w
        else s.cells y x }

/-- The VT operations quantified over in the round-trip and invariant
theorems, at the granularity of the sequencer dispatch (`Screen::apply`). -/
inductive Op where
  | cup (line column : Int)
  | decstbm (top bottom : Option Int)
  | lf
  | ind
  | ri
  | cuu (n : Nat)
  | cud (n : Nat)
  | cuf (n : Nat)
  | cub (n : Nat)
  | cr
  | bs
  | print (cp : Nat)
  | decsc
  | scosc
  | decrc
  | sgr (g : GraphicsAttributes)
  | hyperlink (id : Nat)
  | designateCharset (table : Nat) (c : CharsetId)
  | setDecMode (mode : Nat) (enabled : Bool)
  | su (n : Nat)
deriving DecidableEq, Repr

/-- Embedding of `Screen::designateCharset(table, charset)` effect on the cursor's
charset mapping. -/
def ScreenState.designateCharset (s : ScreenState) (table : Nat) (c : CharsetId) : ScreenState :=
  let cs := s.cursor.charsets
  let cs := match table with
    | 0 => { cs with g0 := c }
    | 1 => { cs with g1 := c }
    | 2 => { cs with g2 := c }
    | _ => { cs with g3 := c }
  { s with cursor := { s.cursor with charsets := cs } }

/-- Embedding of `OSC 8` / SGR dispatch effects on the cursor only. -/
def ScreenState.setHyperlink (s : ScreenState) (id : Nat) : ScreenState :=
  { s with cursor := { s.cursor with hyperlink := id } }

/-- Embedding of `Screen::setGraphicsRenditionCursor`: SGR dispatch mutates only the
cursor's graphics rendition (Screen.cpp lines 1666-1702). -/
def ScreenState.setGraphicsRenditionState (s : ScreenState) (g : GraphicsAttributes) : ScreenState :=
  { s with cursor := { s.cursor with graphicsRendition := g } }

/-- One dispatch step (`Screen::apply`, Screen.cpp lines 3337-3660,
restricted to the embedded operations). -/
def ScreenState.applyOp (s : ScreenState) : Op → ScreenState
  | .cup line column => s.moveCursorTo line column
  | .decstbm top bottom => (s.setTopBottomMargin top bottom).moveCursorTo 0 0
  | .lf => s.linefeed
  | .ind => s.index
  | .ri => s.reverseIndex
  | .cuu n => s.moveCursorUp n
  | .cud n => s.moveCursorDown n
  | .cuf n => s.moveCursorForward n
  | .cub n => s.moveCursorBackward n
  | .cr => s.setCurrentColumn 0
  | .bs => s.backspace
  | .print cp => s.writeTextInternal cp
  | .decsc => s.saveCursor
  | .scosc => s.saveCursor
  | .decrc => s.restoreCursor
  | .sgr g => s.setGraphicsRenditionState g
  | .hyperlink id => s.setHyperlink id
  | .designateCharset t c => s.designateCharset t c
  | .setDecMode m b =>
    if m = DECModeSaveCursor then (if b = true then s.saveCursor else s.restoreCursor)
    else s.setModeDec m b
  | .su n => s.scrollUp n {} s.margin

/-- Run a list of operations left to right. -/
def ScreenState.applyOps (s : ScreenState) (ops : List Op) : ScreenState :=
  ops.foldl ScreenState.applyOp s

/-- The operations that overwrite the saved-cursor slot (DECSC; SCOSC,
which also calls `saveCursor()` at Screen.cpp 3625; DECSET 1048) or whose
program behavior switches or resizes the screen and so leaves this
single-screen model (DEC modes 3, 47, 1047, 1049 in either direction). A
DECSC snapshot provably survives exactly the other operations. -/
def Op.savesOrSwitches : Op → Bool
  | .decsc => true
  | .scosc => true
  | .setDecMode m b =>
    (m == DECModeSaveCursor && b) || m == DECModeColumns132 ||
      m == DECModeUseAlternateScreen || m == DECModeUseAlternateScreen1047 ||
      m == DECModeExtendedAltScreen
  | _ => false

/-- A freshly initialized screen of the given page size: cursor home, full
page margins, blank wrappable lines, no history. -/
def initialScreen (lines columns : Int) (maxHistory : Nat) : ScreenState :=
  { pageLines := lines
    pageColumns := columns
    margin := { vertFrom := 0, vertTo := lines - 1, horiFrom := 0, horiTo := columns - 1 }
    cells := fun _ _ => {}
    lineFlags := fun _ => {}
    maxHistoryLineCount := maxHistory }

/-- The frame facts the DECSC/DECRC round-trip needs about intervening
operations: page size and the saved-cursor slot are untouched. -/
def PreservesFrame (s t : ScreenState) : Prop :=
  t.pageLines = s.pageLines ∧ t.pageColumns = s.pageColumns ∧ t.savedCursor = s.savedCursor

/-! ## Scenario states referenced by the theorems -/

/-- Page 5x5, DECSTBM `CSI 2;3r` (0-based margin rows 1..2), CUP to the last
page line, then LF: the dispatch trace exercising `Screen::linefeed` with the
cursor below the bottom margin. -/
def c2FailState : ScreenState :=
  (initialScreen 5 5 0).applyOps [Op.decstbm (some 1) (some 2), Op.cup 4 0, Op.lf]

/-- Page 3x3, autowrap on, printing `ABCD` (scenario S2). -/
def s2Result : ScreenState :=
  [65, 66, 67, 68].foldl ScreenState.writeTextInternal (initialScreen 3 3 0)

/-- DECSC at home, move to (2,2), DECSC again, then DECRC: the second DECSC
overwrites the saved-cursor slot. -/
def c1CounterState : ScreenState :=
  ((initialScreen 5 5 0).saveCursor.applyOps [Op.cup 2 2, Op.decsc]).restoreCursor

end VtBackend

namespace VtBackend

/-! ## Theorems -/

/-- C2: the claim that the cursor stays within
`[0, pageSize.lines) × [0, pageSize.columns)` in every reachable state is
violated by the code: with margins `[1,2]` on a 5-line page and the cursor
on the bottom page line, LF executes `_cursor.position.line++` (Screen.cpp
line 731) without clamping, moving the cursor to line 5 = pageSize.lines —
the very bound `Screen::verifyState` (lines 286-287) requires. -/
theorem linefeed_below_margin_escapes_page :
    c2FailState.cursor.position.line = c2FailState.pageLines ∧
    ¬ c2FailState.cursor.position.line < c2FailState.pageLines := by
  decide

/-- C5: the claim that `SGR 38;5;n` with `255 < n ≤ 65535` leaves the
foreground unchanged is violated by the code: `impl::parseColor` tests the
parameter index (`i <= 255`, Screen.cpp line 2569) instead of the value, so
`CSI 38;5;300 m` sets the foreground to indexed color 44 (= 300 mod 256)
rather than skipping the malformed parameter. -/
theorem sgr_indexed_fg_out_of_range_changes_foreground :
    applySGR fgTarget (sgrIndexedFgSeq 300) 0 3 ColorM.default = ColorM.indexed 44 ∧
    ColorM.indexed 44 ≠ ColorM.default := by
  exact ⟨rfl, by decide⟩

/-- C7: DECFRA's `fillArea` fills the requested rectangle with the given
codepoint only when it lies in `[32,126] ∪ [160,255]`; for every codepoint
outside these ranges the whole screen state is returned unchanged. -/
theorem fillArea_codepoint_gate (s : ScreenState) (ch : Nat)
    (top left bottom right : Int) :
    (¬ ((32 ≤ ch ∧ ch ≤ 126) ∨ (160 ≤ ch ∧ ch ≤ 255)) →
      s.fillArea ch top left bottom right = s) ∧
    (((32 ≤ ch ∧ ch ≤ 126) ∨ (160 ≤ ch ∧ ch ≤ 255)) →
      ∀ y x : Int, top ≤ y → y ≤ bottom → left ≤ x → x ≤ right →
        ((s.fillArea ch top left bottom right).cells y x).codepoint = ch) := by
  constructor
  · intro h
    simp [ScreenState.fillArea, h]
  · intro h y x h1 h2 h3 h4
    simp only [ScreenState.fillArea, if_neg (not_not_intro h)]
    simp [if_pos (And.intro h1 (And.intro h2 (And.intro h3 h4))), Cell.writeSgrChar]

/-- Witness for `fillArea_codepoint_gate`: codepoint 10 (outside the ranges)
leaves the screen unchanged; codepoint 65 fills cell (0,0) of rectangle
(0,0)-(2,2). -/
theorem fillArea_codepoint_gate_witness :
    ((initialScreen 3 3 0).fillArea 10 0 0 2 2 = initialScreen 3 3 0) ∧
    (((initialScreen 3 3 0).fillArea 65 0 0 2 2).cells 0 0).codepoint = 65 := by
  constructor
  · exact (fillArea_codepoint_gate (initialScreen 3 3 0) 10 0 0 2 2).1 (by decide)
  · exact (fillArea_codepoint_gate (initialScreen 3 3 0) 65 0 0 2 2).2 (by decide)
      0 0 (by decide) (by decide) (by decide) (by decide)

/-- C9: when the first non-blocking PTY write is partial (`0 ≤ rv < size`),
`UnixPty::write` switches the master fd to blocking mode, writes the
remaining `size - rv` bytes, restores non-blocking mode, and returns the
total byte count when the second write succeeds. -/
theorem unixPtyWrite_partial_fallback (size : Nat) (rv rv2 : Int)
    (h0 : 0 ≤ rv) (h1 : rv.toNat < size) (h2 : 0 ≤ rv2) :
    UnixPty.write size rv rv2 =
      ([FdAction.writeCall 0 size,
        FdAction.setBlocking true,
        FdAction.writeCall rv.toNat (size - rv.toNat),
        FdAction.setBlocking false],
       rv + rv2) := by
  simp [UnixPty.write, h0, h1, h2]

/-- Witness for `unixPtyWrite_partial_fallback`: 10 bytes, first write
transfers 4, second transfers the remaining 6, total 10. -/
theorem unixPtyWrite_partial_fallback_witness :
    UnixPty.write 10 4 6 =
      ([FdAction.writeCall 0 10,
        FdAction.setBlocking true,
        FdAction.writeCall 4 6,
        FdAction.setBlocking false],
       10) := by
  have h := unixPtyWrite_partial_fallback 10 4 6 (by decide) (by decide) (by decide)
  simpa using h

/-- C10: `Modes::restore` on a mode with an empty save stack leaves the
whole mode register (the entire `Modes` value) unchanged; with a non-empty
stack it pops exactly one entry of that mode's stack, touching no other
stack. -/
theorem mode_restore_stack_discipline (M : Modes) (mode : Nat) :
    (M.savedModes mode = [] → M.restore [mode] = M) ∧
    (M.savedModes mode ≠ [] →
      ((M.restore [mode]).savedModes mode).length + 1 = (M.savedModes mode).length ∧
      ∀ m : Nat, m ≠ mode → (M.restore [mode]).savedModes m = M.savedModes m) := by
  constructor
  · intro h
    simp [Modes.restore, h]
  · intro h
    refine ⟨?_, ?_⟩
    · simp only [Modes.restore, List.foldl_cons, List.foldl_nil, dif_pos h]
      simp [Modes.setDec]
      have := List.length_pos.mpr h
      omega
    · intro m hm
      simp only [Modes.restore, List.foldl_cons, List.foldl_nil, dif_pos h]
      simp [Modes.setDec, hm]

/-- Witness for `mode_restore_stack_discipline`: on the fresh register an
unrestored mode is a no-op, and after one XTSAVE of mode 25 the restore pops
the single entry. -/
theorem mode_restore_stack_discipline_witness :
    (Modes.initial.restore [25] = Modes.initial) ∧
    (((Modes.initial.save [25]).restore [25]).savedModes 25).length + 1 =
      ((Modes.initial.save [25]).savedModes 25).length := by
  constructor
  · exact (mode_restore_stack_discipline Modes.initial 25).1 rfl
  · exact ((mode_restore_stack_discipline (Modes.initial.save [25]) 25).2 (by simp [Modes.save])).1

/-- C6: setting a mode twice (ANSI or DEC) yields the same mode register as
setting it once, and for every DEC mode the sequence XTSAVE, set, reset,
XTRESTORE leaves the mode with the value it had before the set. -/
theorem mode_set_idempotent_save_restore :
    (∀ (M : Modes) (mode : Nat) (v : Bool),
      (M.setAnsi mode v).setAnsi mode v = M.setAnsi mode v) ∧
    (∀ (M : Modes) (mode : Nat) (v : Bool),
      (M.setDec mode v).setDec mode v = M.setDec mode v) ∧
    (∀ (M : Modes) (mode : Nat),
      ((((M.save [mode]).setDec mode true).setDec mode false).restore [mode]).enabledDec mode
        = M.enabledDec mode) := by
  refine ⟨?_, ?_, ?_⟩
  · intro M mode v
    simp only [Modes.setAnsi, Modes.mk.injEq]
    refine ⟨funext fun i => ?_, trivial, trivial⟩
    by_cases h : i = mode <;> simp [h]
  · intro M mode v
    simp only [Modes.setDec, Modes.mk.injEq]
    refine ⟨trivial, funext fun i => ?_, trivial⟩
    by_cases h : i = mode <;> simp [h]
  · intro M mode
    simp [Modes.save, Modes.setDec, Modes.restore, Modes.enabledDec, Modes.enabledAnsi]

/-- C3: scrolling up by `n` with the margin covering the full vertical page
appends exactly `n` lines to scrollback, so the new history line count is
`min(historyLineCount + n, maxHistoryLineCount)`; scrolling within a
smaller margin leaves history untouched. -/
theorem scrollUp_historyLineCount {α : Type} (g : GridM α) (n : Nat) (m : VertMargin) :
    (m.vFrom = 0 ∧ m.vTo + 1 = g.pageRows.length →
      (g.scrollUp n m).1.historyLineCount =
        min (g.historyLineCount + n) g.maxHistoryLineCount) ∧
    (¬ (m.vFrom = 0 ∧ m.vTo + 1 = g.pageRows.length) →
      (g.scrollUp n m).1.historyLineCount = g.historyLineCount) := by
  constructor
  · intro h
    simp only [GridM.scrollUp, if_pos h, GridM.historyLineCount, List.length_drop,
      List.length_append, List.length_take, List.length_replicate]
    omega
  · intro h
    simp [GridM.scrollUp, if_neg h, GridM.historyLineCount]

/-- Witness for `scrollUp_historyLineCount`: a 2-line page with one history
line and capacity 10; a full-page scroll by 1 yields 2 history lines, a
margin-restricted scroll leaves 1. -/
theorem scrollUp_historyLineCount_witness :
    ((GridM.mk 0 [1, 2] [9] 10).scrollUp 1 (VertMargin.mk 0 1)).1.historyLineCount = 2 ∧
    ((GridM.mk 0 [1, 2] [9] 10).scrollUp 1 (VertMargin.mk 0 0)).1.historyLineCount = 1 := by
  constructor
  · exact ((scrollUp_historyLineCount (GridM.mk 0 [1, 2] [9] 10) 1 (VertMargin.mk 0 1)).1
      (by decide)).trans (by decide)
  · exact ((scrollUp_historyLineCount (GridM.mk 0 [1, 2] [9] 10) 1 (VertMargin.mk 0 0)).2
      (by decide)).trans (by decide)

theorem chunksRender_append (xs ys : List (List Nat)) :
    chunksRender (xs ++ ys) = chunksRender xs ++ chunksRender ys := by
  simp [chunksRender]

theorem pushContent_chunkInv (acc : List ReplyToken × Nat) (n : Nat)
    (hn : n ≤ MaxChunkSize) (h : chunkInv acc) : chunkInv (pushContent acc n) := by
  obtain ⟨hcur, cs, pend, hout, hsum, hall⟩ := h
  unfold pushContent
  by_cases h0 : n = 0
  · simpa [h0] using ⟨hcur, cs, pend, hout, hsum, hall⟩
  · simp only [if_neg h0]
    by_cases hz : acc.2 = 0
    · rw [if_pos hz]
      rw [if_pos hz] at hout
      refine ⟨hn, cs, [n], ?_, by simp, hall⟩
      simp [hout, h0]
    · rw [if_neg hz]
      rw [if_neg hz] at hout
      by_cases hov : MaxChunkSize ≤ acc.2 + n
      · rw [if_pos hov]
        refine ⟨hn, cs ++ [pend], [n], ?_, by simp, ?_⟩
        · simp [hout, chunksRender_append, chunkRender, h0, chunksRender]
        · intro c hc
          rcases List.mem_append.mp hc with hmem | hmem
          · exact hall c hmem
          · simp only [List.mem_singleton] at hmem
            subst hmem
            omega
      · rw [if_neg hov]
        refine ⟨by omega, cs, pend ++ [n], ?_, by simp [hsum], hall⟩
        have hnz : acc.2 + n ≠ 0 := by omega
        simp [hout, hnz]

theorem foldl_pushContent_chunkInv (pieces : List Nat) :
    ∀ acc, (∀ n ∈ pieces, n ≤ MaxChunkSize) → chunkInv acc →
      chunkInv (pieces.foldl pushContent acc) := by
  induction pieces with
  | nil => intro acc _ h; exact h
  | cons p ps ih =>
    intro acc hp h
    exact ih _ (fun n hn => hp n (List.mem_cons_of_mem _ hn))
      (pushContent_chunkInv acc p (hp p (List.mem_cons_self _ _)) h)

/-- C8: for every sequence of captured data pieces (each at most 4096
bytes, as single cells' UTF-8 and newlines are), the capture-buffer reply
stream decomposes into chunks, each prefixed by `ESC ^ <code> ;`,
terminated by `ESC \`, with payload at most `MaxChunkSize = 4096` bytes. -/
theorem captureBuffer_chunked (pieces : List Nat)
    (hp : ∀ n ∈ pieces, n ≤ MaxChunkSize) :
    ∃ cs : List (List Nat),
      captureBufferStream pieces = chunksRender cs ∧
      ∀ c ∈ cs, c.sum ≤ MaxChunkSize := by
  have hinv := foldl_pushContent_chunkInv pieces ([], 0) hp
    ⟨by simp [MaxChunkSize], [], [], by simp [chunksRender], rfl, by simp⟩
  obtain ⟨hcur, cs, pend, hout, hsum, hall⟩ := hinv
  unfold captureBufferStream
  by_cases hz : (pieces.foldl pushContent ([], 0)).2 = 0
  · rw [if_pos hz] at hout
    refine ⟨cs ++ [[]], ?_, ?_⟩
    · simp [hz, hout, chunksRender_append, chunkRender, chunksRender]
    · intro c hc
      rcases List.mem_append.mp hc with hmem | hmem
      · exact hall c hmem
      · simp only [List.mem_singleton] at hmem
        subst hmem
        simp
  · rw [if_neg hz] at hout
    refine ⟨cs ++ [pend, []], ?_, ?_⟩
    · simp [hz, hout, chunksRender_append, chunkRender, chunksRender]
    · intro c hc
      rcases List.mem_append.mp hc with hmem | hmem
      · exact hall c hmem
      · simp only [List.mem_cons, List.mem_singleton] at hmem
        rcases hmem with hmem | hmem
        · subst hmem; omega
        · rcases hmem with hmem | hfalse
          · subst hmem; simp
          · exact absurd hfalse (by simp)

/-- Witness for `captureBuffer_chunked`: two pieces of 1 and 2 bytes. -/
theorem captureBuffer_chunked_witness :
    ∃ cs : List (List Nat),
      captureBufferStream [1, 2] = chunksRender cs ∧
      ∀ c ∈ cs, c.sum ≤ MaxChunkSize := by
  exact captureBuffer_chunked [1, 2] (by decide)

/-- C4: on a 3x3 page with autowrap on, printing `ABCD` leaves line 0 =
"ABC", line 1 starting with "D" carrying the `Wrapped` flag, and the cursor
at (1,1); and in general, a printable filling the last column sets
`wrapPending` instead of moving the cursor (the next printable then
triggers the wrap, as the scenario shows). -/
theorem autowrap_fills_and_wraps :
    ((s2Result.cells 0 0).codepoint = 65 ∧ (s2Result.cells 0 1).codepoint = 66 ∧
     (s2Result.cells 0 2).codepoint = 67 ∧ (s2Result.cells 1 0).codepoint = 68 ∧
     (s2Result.lineFlags 1).wrapped = true ∧ (s2Result.lineFlags 0).wrapped = false ∧
     s2Result.cursor.position = ⟨1, 1⟩) ∧
    (∀ (s : ScreenState) (cp : Nat),
      s.cursor.wrapPending = false →
      s.cursor.autoWrap = true →
      s.modes.enabledDec DECModeLeftRightMargin = false →
      s.cursor.position.column = s.pageColumns - 1 →
      (s.writeTextInternal cp).cursor.position = s.cursor.position ∧
      (s.writeTextInternal cp).cursor.wrapPending = true) := by
  constructor
  · decide
  · intro s cp hwp haw hlr hcol
    have hcrlf : s.crlfIfWrapPending = s := by
      unfold ScreenState.crlfIfWrapPending
      rw [if_neg]
      simp [hwp]
    simp only [ScreenState.writeTextInternal, hcrlf, ScreenState.writeCharToCurrentAndAdvance,
      ScreenState.clearAndAdvance, ucWidth, ScreenState.isCursorInsideMargins, hlr, hcol]
    norm_num
    simp [haw]

/-- Witness for `autowrap_fills_and_wraps`: printing `X` with the cursor on
the last column of a fresh 3x3 page leaves the cursor in place and sets
`wrapPending`. -/
theorem autowrap_fills_and_wraps_witness :
    (((initialScreen 3 3 0).moveCursorTo 0 2).writeTextInternal 88).cursor.position =
      ((initialScreen 3 3 0).moveCursorTo 0 2).cursor.position ∧
    (((initialScreen 3 3 0).moveCursorTo 0 2).writeTextInternal 88).cursor.wrapPending = true := by
  exact autowrap_fills_and_wraps.2 ((initialScreen 3 3 0).moveCursorTo 0 2) 88
    (by decide) (by decide) (by decide) (by decide)

/-- C1 counterexample: from the home position, DECSC, then the operation
sequence [CUP to (2,2), DECSC], then DECRC does not restore the original
cursor position — the intervening DECSC overwrote the saved-cursor slot. -/
theorem decsc_decrc_not_restored_with_intervening_decsc :
    c1CounterState.cursor.position ≠ (initialScreen 5 5 0).cursor.position := by
  decide

/-- Embedding of `PreservesFrame` composes. -/
theorem PreservesFrame.trans {s t u : ScreenState}
    (h1 : PreservesFrame s t) (h2 : PreservesFrame t u) : PreservesFrame s u :=
  ⟨h2.1.trans h1.1, h2.2.1.trans h1.2.1, h2.2.2.trans h1.2.2⟩

/-- Grid scroll-up never touches page size or the saved cursor. -/
theorem gridScrollUp_frame (s : ScreenState) (n : Nat) (sgr : GraphicsAttributes) (m : Margin) :
    PreservesFrame s (s.gridScrollUp n sgr m) := by
  unfold ScreenState.gridScrollUp
  try dsimp only
  split_ifs <;> exact ⟨rfl, rfl, rfl⟩

/-- Grid scroll-down never touches page size or the saved cursor. -/
theorem gridScrollDown_frame (s : ScreenState) (n : Nat) (sgr : GraphicsAttributes) (m : Margin) :
    PreservesFrame s (s.gridScrollDown n sgr m) := by
  unfold ScreenState.gridScrollDown
  try dsimp only
  split_ifs <;> exact ⟨rfl, rfl, rfl⟩

/-- Embedding of `Screen::scrollUp` preserves the frame. -/
theorem scrollUp_frame (s : ScreenState) (n : Nat) (sgr : GraphicsAttributes) (m : Margin) :
    PreservesFrame s (s.scrollUp n sgr m) := gridScrollUp_frame s n sgr m

/-- Embedding of `Screen::scrollDown` preserves the frame. -/
theorem scrollDown_frame (s : ScreenState) (n : Nat) (m : Margin) :
    PreservesFrame s (s.scrollDown n m) := gridScrollDown_frame s n s.cursor.graphicsRendition m

/-- Embedding of `moveCursorTo` preserves the frame. -/
theorem moveCursorTo_frame (s : ScreenState) (l c : Int) :
    PreservesFrame s (s.moveCursorTo l c) := ⟨rfl, rfl, rfl⟩

/-- DECSTBM preserves the frame. -/
theorem setTopBottomMargin_frame (s : ScreenState) (t b : Option Int) :
    PreservesFrame s (s.setTopBottomMargin t b) := by
  unfold ScreenState.setTopBottomMargin
  try dsimp only
  split_ifs <;> exact ⟨rfl, rfl, rfl⟩

/-- Embedding of `linefeed(column)` preserves the frame. -/
theorem linefeedColumn_frame (s : ScreenState) (c : Int) :
    PreservesFrame s (s.linefeedColumn c) := by
  unfold ScreenState.linefeedColumn
  try dsimp only
  split_ifs
  · exact scrollUp_frame _ _ _ _
  · exact ⟨rfl, rfl, rfl⟩

/-- LF preserves the frame. -/
theorem linefeed_frame (s : ScreenState) : PreservesFrame s s.linefeed :=
  linefeedColumn_frame s _

/-- CRLF preserves the frame. -/
theorem crlf_frame (s : ScreenState) : PreservesFrame s s.crlf :=
  linefeedColumn_frame s _

/-- The pending-wrap CRLF preserves the frame. -/
theorem crlfIfWrapPending_frame (s : ScreenState) : PreservesFrame s s.crlfIfWrapPending := by
  unfold ScreenState.crlfIfWrapPending
  try dsimp only
  split_ifs
  · exact (crlf_frame s).trans ⟨rfl, rfl, rfl⟩
  · exact crlf_frame s
  · exact ⟨rfl, rfl, rfl⟩

/-- Embedding of `clearAndAdvance` preserves the frame. -/
theorem clearAndAdvance_frame (s : ScreenState) (offset : Int) :
    PreservesFrame s (s.clearAndAdvance offset) := by
  unfold ScreenState.clearAndAdvance
  try dsimp only
  split_ifs <;> exact ⟨rfl, rfl, rfl⟩

/-- Writing one char preserves the frame. -/
theorem writeCharToCurrentAndAdvance_frame (s : ScreenState) (cp : Nat) :
    PreservesFrame s (s.writeCharToCurrentAndAdvance cp) := by
  unfold ScreenState.writeCharToCurrentAndAdvance
  exact PreservesFrame.trans ⟨rfl, rfl, rfl⟩ (clearAndAdvance_frame _ _)

/-- Printing preserves the frame. -/
theorem writeTextInternal_frame (s : ScreenState) (cp : Nat) :
    PreservesFrame s (s.writeTextInternal cp) := by
  unfold ScreenState.writeTextInternal
  exact (crlfIfWrapPending_frame s).trans (writeCharToCurrentAndAdvance_frame _ _)

/-- CUU preserves the frame. -/
theorem moveCursorUp_frame (s : ScreenState) (n : Nat) :
    PreservesFrame s (s.moveCursorUp n) := ⟨rfl, rfl, rfl⟩

/-- CUD preserves the frame. -/
theorem moveCursorDown_frame (s : ScreenState) (n : Nat) :
    PreservesFrame s (s.moveCursorDown n) := ⟨rfl, rfl, rfl⟩

/-- CUF preserves the frame. -/
theorem moveCursorForward_frame (s : ScreenState) (n : Nat) :
    PreservesFrame s (s.moveCursorForward n) := ⟨rfl, rfl, rfl⟩

/-- CUB preserves the frame. -/
theorem moveCursorBackward_frame (s : ScreenState) (n : Nat) :
    PreservesFrame s (s.moveCursorBackward n) := ⟨rfl, rfl, rfl⟩

/-- CHA/CR preserves the frame. -/
theorem setCurrentColumn_frame (s : ScreenState) (n : Int) :
    PreservesFrame s (s.setCurrentColumn n) := ⟨rfl, rfl, rfl⟩

/-- BS preserves the frame. -/
theorem backspace_frame (s : ScreenState) : PreservesFrame s s.backspace := by
  unfold ScreenState.backspace
  try dsimp only
  split_ifs <;> exact ⟨rfl, rfl, rfl⟩

/-- IND preserves the frame. -/
theorem index_frame (s : ScreenState) : PreservesFrame s s.index := by
  unfold ScreenState.index
  try dsimp only
  split_ifs
  · exact scrollUp_frame _ _ _ _
  · exact moveCursorDown_frame _ _

/-- RI preserves the frame. -/
theorem reverseIndex_frame (s : ScreenState) : PreservesFrame s s.reverseIndex := by
  unfold ScreenState.reverseIndex
  try dsimp only
  split_ifs
  · exact scrollDown_frame _ _ _
  · exact moveCursorUp_frame _ _

/-- DEC mode set/reset preserves the frame. -/
theorem setModeDec_frame (s : ScreenState) (m : Nat) (b : Bool) :
    PreservesFrame s (s.setModeDec m b) := by
  unfold ScreenState.setModeDec
  try dsimp only
  split_ifs <;> exact ⟨rfl, rfl, rfl⟩

/-- DECRC preserves the frame (it reads, never writes, the slot). -/
theorem restoreCursorWith_frame (s : ScreenState) (c : Cursor) :
    PreservesFrame s (s.restoreCursorWith c) := by
  unfold ScreenState.restoreCursorWith
  dsimp only
  refine PreservesFrame.trans ?_ (setModeDec_frame _ _ _)
  refine PreservesFrame.trans ?_ (setModeDec_frame _ _ _)
  exact ⟨rfl, rfl, rfl⟩

/-- DECRC preserves the frame. -/
theorem restoreCursor_frame (s : ScreenState) : PreservesFrame s s.restoreCursor :=
  restoreCursorWith_frame s _

/-- SCS preserves the frame. -/
theorem designateCharset_frame (s : ScreenState) (t : Nat) (c : CharsetId) :
    PreservesFrame s (s.designateCharset t c) := by
  unfold ScreenState.designateCharset
  exact ⟨rfl, rfl, rfl⟩

/-- Every operation that neither saves the cursor nor switches or resizes
the screen preserves page size and the saved-cursor slot. -/
theorem applyOp_frame (s : ScreenState) (op : Op) (h : op.savesOrSwitches = false) :
    PreservesFrame s (s.applyOp op) := by
  cases op with
  | cup l c => exact moveCursorTo_frame s l c
  | decstbm t b => exact (setTopBottomMargin_frame s t b).trans (moveCursorTo_frame _ 0 0)
  | lf => exact linefeed_frame s
  | ind => exact index_frame s
  | ri => exact reverseIndex_frame s
  | cuu n => exact moveCursorUp_frame s n
  | cud n => exact moveCursorDown_frame s n
  | cuf n => exact moveCursorForward_frame s n
  | cub n => exact moveCursorBackward_frame s n
  | cr => exact setCurrentColumn_frame s 0
  | bs => exact backspace_frame s
  | print cp => exact writeTextInternal_frame s cp
  | decsc => simp [Op.savesOrSwitches] at h
  | scosc => simp [Op.savesOrSwitches] at h
  | decrc => exact restoreCursor_frame s
  | sgr g => exact ⟨rfl, rfl, rfl⟩
  | hyperlink id => exact ⟨rfl, rfl, rfl⟩
  | designateCharset t c => exact designateCharset_frame s t c
  | setDecMode m b =>
    by_cases hm : m = DECModeSaveCursor
    · subst hm
      cases b with
      | true => simp [Op.savesOrSwitches] at h
      | false =>
        simp only [ScreenState.applyOp]
        rw [if_pos trivial, if_neg (by simp)]
        exact restoreCursor_frame s
    · simp only [ScreenState.applyOp]
      rw [if_neg hm]
      exact setModeDec_frame s m b
  | su n => exact scrollUp_frame s n {} s.margin

/-- An operation sequence free of cursor saves and screen switches
preserves page size and the saved-cursor slot. -/
theorem applyOps_frame (ops : List Op) (h : ∀ op ∈ ops, op.savesOrSwitches = false)
    (s : ScreenState) : PreservesFrame s (s.applyOps ops) := by
  induction ops generalizing s with
  | nil => exact ⟨rfl, rfl, rfl⟩
  | cons op rest ih =>
    exact (applyOp_frame s op (h op (List.mem_cons_self _ _))).trans
      (ih (fun o ho => h o (List.mem_cons_of_mem _ ho)) (s.applyOp op))

end VtBackend
namespace VtBackend
/-- DECRC restores the cursor struct exactly when the saved position is on the page and origin mode was off at save time (the clamp is then the identity). -/
theorem restoreCursor_exact (u : ScreenState)
    (hl0 : 0 ≤ u.savedCursor.position.line)
    (hl1 : u.savedCursor.position.line < u.pageLines)
    (hc0 : 0 ≤ u.savedCursor.position.column)
    (hc1 : u.savedCursor.position.column < u.pageColumns)
    (horig : u.savedCursor.originMode = false) :
    u.restoreCursor.cursor = u.savedCursor := by
  unfold ScreenState.restoreCursor ScreenState.restoreCursorWith
  dsimp only
  have hclamp : ({ u with cursor := u.savedCursor } : ScreenState).clampCoordinate
      u.savedCursor.position = u.savedCursor.position := by
    simp only [ScreenState.clampCoordinate, ScreenState.clampToScreen]
    rw [if_neg (by simp [horig])]
    have h1 : min u.savedCursor.position.line (u.pageLines - 1) = u.savedCursor.position.line := by
      omega
    have h2 : min u.savedCursor.position.column (u.pageColumns - 1) =
        u.savedCursor.position.column := by
      omega
    show CellLocation.mk _ _ = _
    rw [show ({ u with cursor := u.savedCursor } : ScreenState).pageLines = u.pageLines from rfl,
      show ({ u with cursor := u.savedCursor } : ScreenState).pageColumns = u.pageColumns from rfl,
      h1, h2, max_eq_right hl0, max_eq_right hc0]
  rw [hclamp]
  simp only [ScreenState.setModeDec, DECModeOrigin, DECModeAutoWrap]
  norm_num

/-- C1 (amended): for a state whose cursor is on the page with origin mode
off, DECSC, then any sequence of VT operations that neither saves the
cursor again (DECSC, SCOSC, DECSET 1048 — all of which overwrite the one
saved-cursor slot) nor switches or resizes the screen (DEC modes 3, 47,
1047, 1049), then DECRC restores the entire cursor struct — position,
graphics rendition, charset mapping, origin mode, autowrap, wrap-pending
and hyperlink — bit-identically. -/
theorem decsc_decrc_roundtrip (s : ScreenState) (ops : List Op)
    (hops : ∀ op ∈ ops, op.savesOrSwitches = false)
    (hl0 : 0 ≤ s.cursor.position.line) (hl1 : s.cursor.position.line < s.pageLines)
    (hc0 : 0 ≤ s.cursor.position.column) (hc1 : s.cursor.position.column < s.pageColumns)
    (horig : s.cursor.originMode = false) :
    ((s.saveCursor.applyOps ops).restoreCursor).cursor = s.cursor := by
  obtain ⟨hpl, hpc, hsv⟩ := applyOps_frame ops hops s.saveCursor
  have hsv' : (s.saveCursor.applyOps ops).savedCursor = s.cursor := hsv
  have hpl' : (s.saveCursor.applyOps ops).pageLines = s.pageLines := hpl
  have hpc' : (s.saveCursor.applyOps ops).pageColumns = s.pageColumns := hpc
  have h := restoreCursor_exact (s.saveCursor.applyOps ops)
    (by rw [hsv']; exact hl0) (by rw [hsv', hpl']; exact hl1)
    (by rw [hsv']; exact hc0) (by rw [hsv', hpc']; exact hc1)
    (by rw [hsv']; exact horig)
  exact h.trans hsv'

/-- Witness for `decsc_decrc_roundtrip`: cursor at (1,2) with hyperlink 7 on
a 4x4 page; CUP, SGR and LF intervene between DECSC and DECRC. -/
theorem decsc_decrc_roundtrip_witness :
    ((((((initialScreen 4 4 0).moveCursorTo 1 2).setHyperlink 7).saveCursor).applyOps
        [Op.cup 3 3, Op.sgr {}, Op.lf]).restoreCursor).cursor =
      (((initialScreen 4 4 0).moveCursorTo 1 2).setHyperlink 7).cursor := by
  exact decsc_decrc_roundtrip (((initialScreen 4 4 0).moveCursorTo 1 2).setHyperlink 7)
    [Op.cup 3 3, Op.sgr {}, Op.lf]
    (by decide) (by decide) (by decide) (by decide) (by decide) (by decide)

end VtBackend
